import Mathlib

/-!
Verification development for the BistroHunter restaurant-search service
(src/bistrohunter.py, src/main.py).  The Python functions are shallowly
embedded: pure numeric code over the reals, request plumbing over rationals
and strings, and every outbound HTTP collaborator (the Google geocoder, the
Airtable tabular backend) as an oracle parameter.  Airtable filter formulas
are modelled as lists of `Clause` values, one constructor per f-string
fragment the source interpolates; rendering of numbers to text is abstracted
away, which no claim depends on.
-/

namespace BistroHunter

/-- Model of `math.radians`: degrees to radians, `x * pi / 180`. -/
noncomputable def radians (x : ℝ) : ℝ := x * (Real.pi / 180)

/-- Model of `haversine(lon1, lat1, lon2, lat2)` from src/bistrohunter.py
lines 25-32: great-circle distance in km with mean Earth radius 6367. -/
noncomputable def haversine (lon1 lat1 lon2 lat2 : ℝ) : ℝ :=
  let lon1 := radians lon1
  let lat1 := radians lat1
  let lon2 := radians lon2
  let lat2 := radians lat2
  let dlon := lon2 - lon1
  let dlat := lat2 - lat1
  let a := Real.sin (dlat / 2) ^ 2 +
    Real.cos lat1 * Real.cos lat2 * Real.sin (dlon / 2) ^ 2
  let c := 2 * Real.arcsin (Real.sqrt a)
  6367 * c

/-- Result type of `calcular_bounding_box`: the dict with keys lat_min,
lat_max, lon_min, lon_max. -/
structure BoundingBox where
  lat_min : ℝ
  lat_max : ℝ
  lon_min : ℝ
  lon_max : ℝ

/-- Model of `calcular_bounding_box(lat, lon, radio_km)` from
src/bistrohunter.py lines 34-54. -/
noncomputable def calcular_bounding_box (lat lon radio_km : ℝ) : BoundingBox :=
  let km_por_grado_lat : ℝ := 111.32
  let delta_lat := radio_km / km_por_grado_lat
  let cos_lat := Real.cos (radians lat)
  let km_por_grado_lon := 111.32 * cos_lat
  let delta_lon := radio_km / km_por_grado_lon
  { lat_min := lat - delta_lat
    lat_max := lat + delta_lat
    lon_min := lon - delta_lon
    lon_max := lon + delta_lon }

/-- Value of one Airtable record field.  Location fields hold numbers; text
fields such as bh_message and url hold strings.  (A string stored in a
location field would make the Python `float(...)` conversion raise; such
records are outside the modelled domain and read as 0 here.) -/
inductive FieldVal where
  | num (q : ℚ)
  | str (s : String)
deriving DecidableEq

/-- An Airtable record: its identifier and its field map, modelled as an
association list.  Python compares whole record dicts with `in` /
`not in`; `DecidableEq` gives the corresponding equality here. -/
structure Record where
  id : String
  fields : List (String × FieldVal)
deriving DecidableEq

/-- `r['fields'].get(k, 0)` followed by `float(...)`. -/
def getNum (r : Record) (k : String) : ℚ :=
  match r.fields.lookup k with
  | some (FieldVal.num q) => q
  | _ => 0

/-- `r['fields'].get(k, dflt)` for a text field. -/
def getStr (r : Record) (k : String) (dflt : String) : String :=
  match r.fields.lookup k with
  | some (FieldVal.str s) => s
  | _ => dflt

/-- One conjunct of an Airtable filter formula, one constructor per
f-string shape interpolated by src/bistrohunter.py lines 190-228 and
266-269 / 321-324.
`findPrice t` stands for the FIND of t in ARRAYJOIN of the price_range
field; `orFindPrice ts` for the OR of those FINDs; `searchCat t` for the
SEARCH of t in the categories_string field (used for both cocina and
diet); `orSearchCat ts` for the OR of those; `searchDish t` for the SEARCH
of t in the google_reviews field; `dishIf ts` for the IF combining the
AND-all and OR-any SEARCH conditions over ts; the four numeric
constructors stand for the inequality bounds on the location/lat and
location/lng fields. -/
inductive Clause where
  | findPrice (tok : String)
  | orFindPrice (toks : List String)
  | searchCat (tok : String)
  | orSearchCat (toks : List String)
  | searchDish (tok : String)
  | dishIf (toks : List String)
  | latGe (x : ℝ)
  | latLe (x : ℝ)
  | lngGe (x : ℝ)
  | lngLe (x : ℝ)

/-- The user-supplied text tokens interpolated into a clause. -/
def Clause.strings : Clause → List String
  | Clause.findPrice t => [t]
  | Clause.orFindPrice ts => ts
  | Clause.searchCat t => [t]
  | Clause.orSearchCat ts => ts
  | Clause.searchDish t => [t]
  | Clause.dishIf ts => ts
  | Clause.latGe _ => []
  | Clause.latLe _ => []
  | Clause.lngGe _ => []
  | Clause.lngLe _ => []

/-- The backend field a clause constrains. -/
def Clause.field : Clause → String
  | Clause.findPrice _ => "price_range"
  | Clause.orFindPrice _ => "price_range"
  | Clause.searchCat _ => "categories_string"
  | Clause.orSearchCat _ => "categories_string"
  | Clause.searchDish _ => "google_reviews"
  | Clause.dishIf _ => "google_reviews"
  | Clause.latGe _ => "location/lat"
  | Clause.latLe _ => "location/lat"
  | Clause.lngGe _ => "location/lng"
  | Clause.lngLe _ => "location/lng"

/-- Whether some clause of a formula interpolates the given weekday name
(the generous reading of a day-of-week clause). -/
def hasDayClauseB (f : List Clause) (day : String) : Bool :=
  f.any fun c => (Clause.strings c).contains day

/-- The four bounding-box conjuncts appended to a formula (lines 266-269
and 321-324 of src/bistrohunter.py, lines 50-57 and 86-93 of src/main.py). -/
def bboxClauses (bb : BoundingBox) : List Clause :=
  [Clause.latGe bb.lat_min, Clause.latLe bb.lat_max,
   Clause.lngGe bb.lon_min, Clause.lngLe bb.lon_max]

/-- Python truthiness for an optional string: `None` and the empty string
are falsy. -/
def optTruthy : Option String → Option String
  | some s => if s = "" then none else some s
  | none => none

/-- Helper for `strSplit`: split a character list at every separator. -/
def splitAux (sep : Char) : List Char → List Char → List (List Char)
  | [], cur => [cur.reverse]
  | c :: rest, cur =>
      if c = sep then cur.reverse :: splitAux sep rest []
      else splitAux sep rest (c :: cur)

/-- Model of Python `s.split(sep)` for a one-character separator. -/
def strSplit (s : String) (sep : Char) : List String :=
  (splitAux sep s.data []).map fun l => String.mk l

/-- Decimal digit value of a character. -/
def digitVal (c : Char) : Option ℕ :=
  if c = '0' then some 0 else if c = '1' then some 1 else if c = '2' then some 2
  else if c = '3' then some 3 else if c = '4' then some 4 else if c = '5' then some 5
  else if c = '6' then some 6 else if c = '7' then some 7 else if c = '8' then some 8
  else if c = '9' then some 9 else none

/-- Helper for `strToNat`: fold a digit run into a number. -/
def natOfDigits : List Char → ℕ → Option ℕ
  | [], acc => some acc
  | c :: rest, acc =>
      match digitVal c with
      | some d => natOfDigits rest (acc * 10 + d)
      | none => none

/-- Parse a non-empty all-digit string, as the strptime field directives
and `int` conversion accept. -/
def strToNat (s : String) : Option ℕ :=
  match s.data with
  | [] => none
  | l => natOfDigits l 0

/-- Whitespace as stripped by Python `str.strip()`. -/
def isSpace (c : Char) : Bool := c = ' ' || c = '\t' || c = '\n' || c = '\r'

/-- Model of Python `s.strip()`. -/
def pyStrip (s : String) : String :=
  String.mk (((s.data.dropWhile isSpace).reverse.dropWhile isSpace).reverse)

/-- Whether a string starts with the given character. -/
def startsWithChar (s : String) (c : Char) : Bool :=
  match s.data with
  | c' :: _ => c' = c
  | [] => false

/-- Drop the first character of a string. -/
def dropFirst (s : String) : String :=
  match s.data with
  | _ :: rest => String.mk rest
  | [] => ""

/-- Model of the formula_parts construction of src/bistrohunter.py lines
188-228 from the four optional filters.  Nothing here reads dia_semana:
the source never adds a day-of-week conjunct. -/
def buildFormulaParts (price_range cocina diet dish : Option String) : List Clause :=
  (match optTruthy price_range with
   | some pr =>
       let ranges := strSplit pr ','
       if ranges.length = 1 then [Clause.findPrice pr]
       else [Clause.orFindPrice (ranges.map pyStrip)]
   | none => []) ++
  (match optTruthy cocina with
   | some co =>
       let cocinas := strSplit co ','
       if cocinas.length = 1 then [Clause.searchCat (pyStrip co)]
       else [Clause.orSearchCat (cocinas.map pyStrip)]
   | none => []) ++
  (match optTruthy diet with
   | some di => [Clause.searchCat di]
   | none => []) ++
  (match optTruthy dish with
   | some dh =>
       let dishes := strSplit dh ','
       if dishes.length = 1 then [Clause.searchDish dh]
       else [Clause.dishIf (dishes.map pyStrip)]
   | none => [])

/-- A geocoded location as returned in the geocoder JSON. -/
structure GeoPointQ where
  lat : ℚ
  lng : ℚ
deriving DecidableEq

/-- The location / bounding_box pair returned by the three geocoding
helpers of src/bistrohunter.py. -/
structure LocBB where
  location : GeoPointQ
  bounding_box : BoundingBox

/-- Model of `obtener_coordenadas_zona(zona, ciudad, radio_km)` (lines
88-113): the Google call is the oracle `geo`; a non-OK status or an
exception is `none`. -/
noncomputable def obtener_coordenadas_zona
    (geo : String → String → Option GeoPointQ)
    (zona ciudad : String) (radio_km : ℚ) : Option LocBB :=
  (geo zona ciudad).map fun p =>
    { location := p
      bounding_box := calcular_bounding_box (p.lat : ℝ) (p.lng : ℝ) (radio_km : ℝ) }

/-- Model of `obtener_coordenadas(ciudad, radio_km)` (lines 115-140). -/
noncomputable def obtener_coordenadas
    (geo : String → Option GeoPointQ)
    (ciudad : String) (radio_km : ℚ) : Option LocBB :=
  (geo ciudad).map fun p =>
    { location := p
      bounding_box := calcular_bounding_box (p.lat : ℝ) (p.lng : ℝ) (radio_km : ℝ) }

/-- Model of `busqueda_coordenadas_airtable(coordenadas, radio_km)` (lines
56-85): the reverse-geocoding status check is the oracle `revGeo`; on OK
the location is the input coordinate pair itself. -/
noncomputable def busqueda_coordenadas_airtable
    (revGeo : ℚ → ℚ → Bool)
    (coordenadas : List ℚ) (radio_km : ℚ) : Option LocBB :=
  match coordenadas with
  | c0 :: c1 :: _ =>
      if revGeo c0 c1 then
        some { location := { lat := c0, lng := c1 }
               bounding_box := calcular_bounding_box (c0 : ℝ) (c1 : ℝ) (radio_km : ℝ) }
      else none
  | _ => none

/-- The merge of one backend response into the accumulated list (lines
283-287 and 338-342): keep a returned record only when the accumulated
list does not already contain an equal record, then extend. -/
def mergeRecords (acc newRecords : List Record) : List Record :=
  acc ++ newRecords.filter (fun r => decide (r ∉ acc))

/-- The guarded merge of lines 282-287 / 337-342: a backend reply lacking
a records key (or a failed request), modelled as `none`, leaves the
accumulation unchanged. -/
def mergeStep (backend : List Clause → Option (List Record))
    (fp : List Clause) (acc : List Record) : List Record :=
  match backend fp with
  | some records => mergeRecords acc records
  | none => acc

/-- The per-zona loop of src/bistrohunter.py lines 244-287: geocode each
zone (skipping zones the geocoder fails on), query the backend with the
zone bounding box appended to the static parts, and merge.  A `none`
backend reply models a failed request or a reply without a records key. -/
noncomputable def zonaSearch
    (geoZona : String → String → Option GeoPointQ)
    (backend : List Clause → Option (List Record))
    (parts : List Clause) (city : String) (radio_km : ℚ) :
    List String → List Record → List Record
  | [], acc => acc
  | zona_item :: rest, acc =>
    match obtener_coordenadas_zona geoZona zona_item city radio_km with
    | none => zonaSearch geoZona backend parts city radio_km rest acc
    | some loc =>
        let formula_parts_zona := parts ++ bboxClauses loc.bounding_box
        zonaSearch geoZona backend parts city radio_km rest
          (mergeStep backend formula_parts_zona acc)

/-- The zone list of src/bistrohunter.py lines 236-241: a comma-holding
zona is split on commas with each token stripped, otherwise the single
zone is used. -/
def zonasListOf (z : String) : List String :=
  if z.data.contains ',' then (strSplit z ',').map pyStrip else [z]

/-- The radius-expansion while loop of src/bistrohunter.py lines 315-350,
returning the accumulated records and the last filter formula built
(`filter_formula` is None when no iteration ran).  Radius starts at 0.5 km,
grows by 0.5 km, and the loop stops once ten records accumulate or the
next radius would exceed 2 km. -/
noncomputable def searchLoop
    (backend : List Clause → Option (List Record))
    (parts : List Clause) (lat_centro lon_centro : ℚ) :
    ℚ → List Record → List Record × Option (List Clause)
  | radio_km, acc =>
    if acc.length < 10 then
      let limites := calcular_bounding_box (lat_centro : ℝ) (lon_centro : ℝ) (radio_km : ℝ)
      let formula_parts_city := parts ++ bboxClauses limites
      let acc' := mergeStep backend formula_parts_city acc
      if 10 ≤ acc'.length then (acc', some formula_parts_city)
      else if 2 < radio_km + 1/2 then (acc', some formula_parts_city)
      else searchLoop backend parts lat_centro lon_centro (radio_km + 1/2) acc'
    else (acc, none)
termination_by radio_km _ => (4 - ⌊radio_km * 2⌋).toNat
decreasing_by
  rename_i h1 h2 h3
  have h4 : radio_km * 2 ≤ 3 := by
    have : ¬ 2 < radio_km + 1/2 := h3
    linarith [not_lt.mp this]
  have h5 : ⌊radio_km * 2⌋ ≤ 3 := by
    have := Int.floor_le_floor (α := ℚ) h4
    simpa using this
  have h6 : ⌊(radio_km + 1/2) * 2⌋ = ⌊radio_km * 2⌋ + 1 := by
    have e : (radio_km + 1/2) * 2 = radio_km * 2 + (1 : ℤ) := by push_cast; ring
    rw [e, Int.floor_add_int]
  simp only [h6]
  omega

/-- Trace instrumentation of `searchLoop`: the same recursion, recording
for every backend query the radius used and the accumulated list right
after the merge. -/
noncomputable def searchSteps
    (backend : List Clause → Option (List Record))
    (parts : List Clause) (lat_centro lon_centro : ℚ) :
    ℚ → List Record → List (ℚ × List Record)
  | radio_km, acc =>
    if acc.length < 10 then
      let limites := calcular_bounding_box (lat_centro : ℝ) (lon_centro : ℝ) (radio_km : ℝ)
      let formula_parts_city := parts ++ bboxClauses limites
      let acc' := mergeStep backend formula_parts_city acc
      (radio_km, acc') ::
        (if 10 ≤ acc'.length then []
         else if 2 < radio_km + 1/2 then []
         else searchSteps backend parts lat_centro lon_centro (radio_km + 1/2) acc')
    else []
termination_by radio_km _ => (4 - ⌊radio_km * 2⌋).toNat
decreasing_by
  rename_i h1 h2 h3
  have h4 : radio_km * 2 ≤ 3 := by
    have : ¬ 2 < radio_km + 1/2 := h3
    linarith [not_lt.mp this]
  have h5 : ⌊radio_km * 2⌋ ≤ 3 := by
    have := Int.floor_le_floor (α := ℚ) h4
    simpa using this
  have h6 : ⌊(radio_km + 1/2) * 2⌋ = ⌊radio_km * 2⌋ + 1 := by
    have e : (radio_km + 1/2) * 2 = radio_km * 2 + (1 : ℤ) := by push_cast; ring
    rw [e, Int.floor_add_int]
  simp only [h6]
  omega

/-- The sort key of the proximity sort (lines 354-358): haversine distance
from the centre to the record location, each missing coordinate defaulting
to 0 through `getNum`. -/
noncomputable def sortKey (lat_centro lon_centro : ℚ) (r : Record) : ℝ :=
  haversine (lon_centro : ℝ) (lat_centro : ℝ)
    ((getNum r "location/lng" : ℚ) : ℝ) ((getNum r "location/lat" : ℚ) : ℝ)

/-- The stable ascending sort by `sortKey` (line 353-358, Python
`list.sort(key=...)`). -/
noncomputable def sortByProx (lat_centro lon_centro : ℚ) (l : List Record) : List Record :=
  l.mergeSort (fun a b => decide (sortKey lat_centro lon_centro a ≤ sortKey lat_centro lon_centro b))

/-- The tail of the non-zona branch (lines 315-361): run the expansion
loop from radius 0.5 over an empty accumulation, optionally sort by
proximity, truncate to ten. -/
noncomputable def searchFinish
    (backend : List Clause → Option (List Record))
    (parts : List Clause) (lat_centro lon_centro : ℚ)
    (sort_by_proximity : Bool) : List Record × Option (List Clause) :=
  let r := searchLoop backend parts lat_centro lon_centro (1/2) []
  let sorted := if sort_by_proximity then sortByProx lat_centro lon_centro r.1 else r.1
  (sorted.take 10, r.2)

/-- Body of `obtener_restaurantes_por_ciudad` (src/bistrohunter.py lines
168-364), before its catch-all exception handler.  Errors carry the HTTP
status and detail of the HTTPException raised. -/
noncomputable def obtener_restaurantes_por_ciudad_body
    (geoZona : String → String → Option GeoPointQ)
    (geoCity : String → Option GeoPointQ)
    (revGeo : ℚ → ℚ → Bool)
    (backend : List Clause → Option (List Record))
    (city : String) (dia_semana : Option String)
    (price_range cocina diet dish zona : Option String)
    (coordenadas : Option (List ℚ))
    (radio_km : ℚ) (sort_by_proximity : Bool) :
    Except (ℕ × String) (List Record × Option (List Clause)) :=
  let formula_parts := buildFormulaParts price_range cocina diet dish
  match optTruthy zona with
  | some z =>
      let zonas_list := zonasListOf z
      let found := zonaSearch geoZona backend formula_parts city radio_km zonas_list []
      Except.ok (found.take (zonas_list.length * 10), none)
  | none =>
      match coordenadas with
      | some (c :: cs) =>
          if (c :: cs).length = 2 then
            match busqueda_coordenadas_airtable revGeo (c :: cs) 1 with
            | none => Except.error (404, "Coordenadas no encontradas.")
            | some loc =>
                Except.ok (searchFinish backend formula_parts
                  loc.location.lat loc.location.lng sort_by_proximity)
          else
            Except.error (400,
              "Las coordenadas deben ser una lista de dos numeros (latitud y longitud).")
      | _ =>
          match obtener_coordenadas geoCity city radio_km with
          | none => Except.error (404, "Ciudad no encontrada.")
          | some loc =>
              Except.ok (searchFinish backend formula_parts
                loc.location.lat loc.location.lng sort_by_proximity)

/-- `obtener_restaurantes_por_ciudad` with its catch-all handler (lines
366-368): any exception raised inside, including the HTTPExceptions of the
body, is converted to a 500. -/
noncomputable def obtener_restaurantes_por_ciudad
    (geoZona : String → String → Option GeoPointQ)
    (geoCity : String → Option GeoPointQ)
    (revGeo : ℚ → ℚ → Bool)
    (backend : List Clause → Option (List Record))
    (city : String) (dia_semana : Option String)
    (price_range cocina diet dish zona : Option String)
    (coordenadas : Option (List ℚ))
    (radio_km : ℚ) (sort_by_proximity : Bool) :
    Except (ℕ × String) (List Record × Option (List Clause)) :=
  match obtener_restaurantes_por_ciudad_body geoZona geoCity revGeo backend city dia_semana
      price_range cocina diet dish zona coordenadas radio_km sort_by_proximity with
  | Except.ok x => Except.ok x
  | Except.error _ => Except.error (500, "Error al obtener restaurantes de la ciudad")

/-- A calendar date as produced by `datetime.strptime(date, "%Y-%m-%d")`. -/
structure Date where
  y : ℕ
  m : ℕ
  d : ℕ
deriving DecidableEq

/-- Length of a Gregorian month, with the standard leap-year rule, as
validated by `datetime.strptime`. -/
def diasEnMes (y m : ℕ) : ℕ :=
  if m = 2 then (if y % 4 = 0 ∧ (y % 100 ≠ 0 ∨ y % 400 = 0) then 29 else 28)
  else if m = 4 ∨ m = 6 ∨ m = 9 ∨ m = 11 then 30 else 31

/-- Model of `datetime.strptime(date, "%Y-%m-%d")` as used in
src/main.py lines 132-136: three dash-separated decimal components with a
valid Gregorian month and day; anything else raises and is `none`. -/
def parseDate (s : String) : Option Date :=
  match strSplit s '-' with
  | [ys, ms, ds] =>
      match strToNat ys, strToNat ms, strToNat ds with
      | some y, some m, some d =>
          if 1 ≤ m ∧ m ≤ 12 ∧ 1 ≤ d ∧ d ≤ diasEnMes y m then some ⟨y, m, d⟩ else none
      | _, _, _ => none
  | _ => none

/-- Model of Python `datetime.date.weekday` (Monday = 0), via the standard
Zeller congruence. -/
def pyWeekday (dt : Date) : ℕ :=
  let p := if dt.m ≤ 2 then (dt.y - 1, dt.m + 12) else (dt.y, dt.m)
  let K := p.1 % 100
  let J := p.1 / 100
  let h := (dt.d + 13 * (p.2 + 1) / 5 + K + K / 4 + J / 4 + 5 * J) % 7
  (h + 5) % 7

/-- The Spanish weekday names of src/main.py line 109. -/
def dias_semana : List String :=
  ["lunes", "martes", "miércoles", "jueves", "viernes", "sábado", "domingo"]

/-- Model of `obtener_dia_semana(fecha)` from src/main.py lines 108-110. -/
def obtener_dia_semana (fecha : Date) : String :=
  dias_semana.getD (pyWeekday fecha) ""

/-- Model of Python `float(s)` on the plain decimal forms the service
receives (optional sign, digits, optional fractional part); scientific
notation and the other exotic forms accepted by Python are outside the
modelled domain. -/
def parseDecimal (s : String) : Option ℚ :=
  match strSplit s '.' with
  | [i] => (strToNat i).map (fun n => (n : ℚ))
  | [i, f] =>
      match strToNat (i ++ f) with
      | some n => some ((n : ℚ) / (10 : ℚ) ^ f.length)
      | none => none
  | _ => none

/-- Signed variant of `parseDecimal`. -/
def parseFloat (s : String) : Option ℚ :=
  if startsWithChar s '-' then (parseDecimal (dropFirst s)).map Neg.neg
  else if startsWithChar s '+' then parseDecimal (dropFirst s)
  else parseDecimal s

/-- An HTTP response as seen by the caller: a JSON body, or an error
status produced by a raised HTTPException. -/
inductive HResp (β : Type) where
  | ok (body : β)
  | err (status : ℕ) (detail : String)

/-- The JSON body shapes returned by GET /api/getRestaurants in
src/main.py lines 60-63 and 96-100: the parsed coordinate list with the
formula, or the geocoded zone centre with the formula. -/
inductive GetRestBody where
  | coords (coordenadas : List ℚ) (formula : List Clause)
  | located (lat lng : ℚ) (formula : List Clause)

/-- The top-level JSON keys of a `GetRestBody`. -/
def GetRestBody.keys : GetRestBody → List String
  | GetRestBody.coords _ _ => ["coordenadas", "formula"]
  | GetRestBody.located _ _ _ => ["lat", "lng", "formula"]

/-- The keys of an OK response, `none` for an error response. -/
def respKeys : HResp GetRestBody → Option (List String)
  | HResp.ok b => some b.keys
  | HResp.err _ _ => none

/-- Body of `get_restaurantes` (src/main.py lines 19-101), before its
catch-all exception handler: parse coordinates when supplied and answer
with coordinates plus bounding-box formula; otherwise require a zone,
geocode it, and answer with the centre plus formula.  No Airtable query is
ever issued by this endpoint.  A list of fewer than two parsed
coordinates raises IndexError at line 46, modelled as a 500 error. -/
noncomputable def get_restaurantes_body
    (geoZona : String → String → Option GeoPointQ)
    (city : String) (coordenadas zona : Option String) :
    Except (ℕ × String) GetRestBody :=
  match optTruthy coordenadas with
  | some s =>
      match (strSplit s ',').mapM parseFloat with
      | none => Except.error (400, "Formato de coordenadas invalido")
      | some cs =>
          match cs with
          | c0 :: c1 :: _ =>
              let bounding_box := calcular_bounding_box (c0 : ℝ) (c1 : ℝ) 2
              Except.ok (GetRestBody.coords cs (bboxClauses bounding_box))
          | _ => Except.error (500, "IndexError")
  | none =>
      match optTruthy zona with
      | none =>
          Except.error (400, "Debes especificar zona o coordenadas si no usas city.")
      | some z =>
          match obtener_coordenadas_zona geoZona z city 2 with
          | none => Except.error (404, "Zona o ciudad no encontrada")
          | some loc =>
              let bounding_box :=
                calcular_bounding_box (loc.location.lat : ℝ) (loc.location.lng : ℝ) 2
              Except.ok (GetRestBody.located loc.location.lat loc.location.lng
                (bboxClauses bounding_box))

/-- `get_restaurantes` with its catch-all handler (src/main.py lines
102-104): every exception raised inside the handler, including the
HTTPExceptions with status 400 and 404 raised by the body, is caught and
converted to a 500 response. -/
noncomputable def get_restaurantes
    (geoZona : String → String → Option GeoPointQ)
    (city : String) (coordenadas zona : Option String) : HResp GetRestBody :=
  match get_restaurantes_body geoZona city coordenadas zona with
  | Except.ok b => HResp.ok b
  | Except.error _ => HResp.err 500 "Error interno del servidor"

/-- The JSON body of POST /procesar-variables (src/main.py lines 112-188).
The echoed variables and api_call fields carry no verified content and
are omitted; restaurants items are the (bh_message, url) pairs of lines
159-165. -/
inductive PVBody where
  | restaurants (items : List (String × String))
  | mensaje (msg : String)
deriving DecidableEq

/-- The JSON request body of POST /procesar-variables. -/
structure PVData where
  city : Option String
  date : Option String
  price_range : Option String
  cocina : Option String
  diet : Option String
  dish : Option String
  zona : Option String
  coordenadas : Option (List ℚ)

/-- Body of `procesar_variables` (src/main.py lines 113-188) before its
catch-all handler: require a truthy city (else HTTPException 400), parse
the date when supplied (else HTTPException 400), resolve the Spanish
weekday, call the search, and shape the result. -/
noncomputable def procesar_variables_body
    (geoZona : String → String → Option GeoPointQ)
    (geoCity : String → Option GeoPointQ)
    (revGeo : ℚ → ℚ → Bool)
    (backend : List Clause → Option (List Record))
    (data : PVData) : Except (ℕ × String) PVBody :=
  match optTruthy data.city with
  | none => Except.error (400, "La variable \x27city\x27 es obligatoria.")
  | some city =>
      let dia : Except (ℕ × String) (Option String) :=
        match optTruthy data.date with
        | none => Except.ok none
        | some d =>
            match parseDate d with
            | none => Except.error (400,
                "La fecha proporcionada no tiene el formato correcto (YYYY-MM-DD).")
            | some dt => Except.ok (some (obtener_dia_semana dt))
      match dia with
      | Except.error e => Except.error e
      | Except.ok dia_semana =>
          match obtener_restaurantes_por_ciudad geoZona geoCity revGeo backend city
              dia_semana data.price_range data.cocina data.diet data.dish data.zona
              data.coordenadas 1 true with
          | Except.error e => Except.error e
          | Except.ok (restaurantes, _) =>
              if restaurantes.isEmpty then
                Except.ok (PVBody.mensaje
                  "No se encontraron restaurantes con los filtros aplicados.")
              else
                Except.ok (PVBody.restaurants (restaurantes.map fun r =>
                  (getStr r "bh_message" "Sin descripción", getStr r "url" "No especificado")))

/-- `procesar_variables` with its catch-all handler (src/main.py lines
189-191): every exception raised inside, including the HTTPExceptions with
status 400 raised for a missing city or a malformed date, is caught and
converted to a 500 response. -/
noncomputable def procesar_variables
    (geoZona : String → String → Option GeoPointQ)
    (geoCity : String → Option GeoPointQ)
    (revGeo : ℚ → ℚ → Bool)
    (backend : List Clause → Option (List Record))
    (data : PVData) : HResp PVBody :=
  match procesar_variables_body geoZona geoCity revGeo backend data with
  | Except.ok b => HResp.ok b
  | Except.error _ => HResp.err 500 "Error al procesar variables"

/-! ## Shared lemmas about the geospatial math -/

/-- Unfolding of `radians`. -/
theorem radians_def (x : ℝ) : radians x = x * (Real.pi / 180) := rfl

/-- The haversine distance of a point to itself is zero. -/
theorem haversine_self (lon lat : ℝ) : haversine lon lat lon lat = 0 := by
  simp [haversine]

/-- The haversine distance is symmetric in its two points. -/
theorem haversine_comm (lon1 lat1 lon2 lat2 : ℝ) :
    haversine lon1 lat1 lon2 lat2 = haversine lon2 lat2 lon1 lat1 := by
  have hs : ∀ x y : ℝ, Real.sin ((x - y) / 2) ^ 2 = Real.sin ((y - x) / 2) ^ 2 := by
    intro x y
    rw [show (x - y) / 2 = -((y - x) / 2) by ring, Real.sin_neg, neg_sq]
  simp only [haversine]
  rw [hs (radians lat2) (radians lat1), hs (radians lon2) (radians lon1),
    mul_comm (Real.cos (radians lat1)) (Real.cos (radians lat2))]

/-- Two points on the same meridian whose latitudes differ by at most 180
degrees are at positive haversine distance. -/
theorem haversine_pos_of_lat_lt (lon lat1 lat2 : ℝ) (h1 : lat1 < lat2)
    (h2 : lat2 - lat1 ≤ 180) : 0 < haversine lon lat1 lon lat2 := by
  have hπ := Real.pi_pos
  simp only [haversine, radians, sub_self, zero_div, Real.sin_zero, ne_eq,
    OfNat.ofNat_ne_zero, not_false_eq_true, zero_pow, mul_zero, add_zero]
  have hx0 : 0 < (lat2 * (Real.pi / 180) - lat1 * (Real.pi / 180)) / 2 := by
    have e : lat2 * (Real.pi / 180) - lat1 * (Real.pi / 180) =
        (lat2 - lat1) * (Real.pi / 180) := by ring
    rw [e]
    have : 0 < (lat2 - lat1) * (Real.pi / 180) :=
      mul_pos (by linarith) (by positivity)
    linarith
  have hxlt : (lat2 * (Real.pi / 180) - lat1 * (Real.pi / 180)) / 2 < Real.pi := by
    have e : lat2 * (Real.pi / 180) - lat1 * (Real.pi / 180) =
        (lat2 - lat1) * (Real.pi / 180) := by ring
    rw [e]
    have hb : (lat2 - lat1) * (Real.pi / 180) ≤ 180 * (Real.pi / 180) :=
      mul_le_mul_of_nonneg_right h2 (by positivity)
    have h180 : (180 : ℝ) * (Real.pi / 180) = Real.pi := by ring
    rw [h180] at hb
    linarith
  have hs : 0 < Real.sin ((lat2 * (Real.pi / 180) - lat1 * (Real.pi / 180)) / 2) :=
    Real.sin_pos_of_pos_of_lt_pi hx0 hxlt
  have h4 : 0 < Real.sqrt
      (Real.sin ((lat2 * (Real.pi / 180) - lat1 * (Real.pi / 180)) / 2) ^ 2) :=
    Real.sqrt_pos.mpr (pow_pos hs 2)
  have h5 := Real.arcsin_pos.mpr h4
  have h6 : (0:ℝ) < 6367 := by norm_num
  exact mul_pos h6 (mul_pos two_pos h5)

/-! ## C8: purity, self-distance, symmetry and radius of `haversine` -/

/-- C8: `haversine` is a total function on real latitude/longitude pairs;
it returns 0 for every point paired with itself; it is symmetric in its
two points; and its closed form scales the central angle by the mean
Earth radius 6367 km. -/
theorem C8_haversine_properties :
    (∀ lon lat : ℝ, haversine lon lat lon lat = 0) ∧
    (∀ lon1 lat1 lon2 lat2 : ℝ,
      haversine lon1 lat1 lon2 lat2 = haversine lon2 lat2 lon1 lat1) ∧
    (∀ lon1 lat1 lon2 lat2 : ℝ,
      haversine lon1 lat1 lon2 lat2 =
        6367 * (2 * Real.arcsin (Real.sqrt
          (Real.sin ((radians lat2 - radians lat1) / 2) ^ 2 +
            Real.cos (radians lat1) * Real.cos (radians lat2) *
              Real.sin ((radians lon2 - radians lon1) / 2) ^ 2)))) :=
  ⟨haversine_self, haversine_comm, fun _ _ _ _ => rfl⟩

/-! ## C4: the bounding box is non-degenerate with the stated deltas -/

/-- C4: for every radius r > 0 and latitude strictly between -90 and 90,
the bounding box satisfies lat_min < lat_max and lon_min < lon_max, with
latitude delta r / 111.32 and longitude delta
r / (111.32 * cos(latitude in radians)). -/
theorem C4_bounding_box (lat lon radio_km : ℝ) (hr : 0 < radio_km)
    (h1 : -90 < lat) (h2 : lat < 90) :
    (calcular_bounding_box lat lon radio_km).lat_min <
      (calcular_bounding_box lat lon radio_km).lat_max ∧
    (calcular_bounding_box lat lon radio_km).lon_min <
      (calcular_bounding_box lat lon radio_km).lon_max ∧
    (calcular_bounding_box lat lon radio_km).lat_max = lat + radio_km / 111.32 ∧
    (calcular_bounding_box lat lon radio_km).lat_min = lat - radio_km / 111.32 ∧
    (calcular_bounding_box lat lon radio_km).lon_max =
      lon + radio_km / (111.32 * Real.cos (radians lat)) ∧
    (calcular_bounding_box lat lon radio_km).lon_min =
      lon - radio_km / (111.32 * Real.cos (radians lat)) := by
  have hπ := Real.pi_pos
  have hcos : 0 < Real.cos (radians lat) := by
    apply Real.cos_pos_of_mem_Ioo
    rw [radians_def]
    constructor
    · have h := mul_lt_mul_of_pos_right h1 (show (0:ℝ) < Real.pi / 180 by positivity)
      calc -(Real.pi / 2) = (-90) * (Real.pi / 180) := by ring
        _ < lat * (Real.pi / 180) := h
    · have h := mul_lt_mul_of_pos_right h2 (show (0:ℝ) < Real.pi / 180 by positivity)
      calc lat * (Real.pi / 180) < 90 * (Real.pi / 180) := h
        _ = Real.pi / 2 := by ring
  have hdlat : 0 < radio_km / 111.32 := by positivity
  have hdlon : 0 < radio_km / (111.32 * Real.cos (radians lat)) :=
    div_pos hr (mul_pos (by norm_num) hcos)
  refine ⟨?_, ?_, rfl, rfl, rfl, rfl⟩
  · show lat - radio_km / 111.32 < lat + radio_km / 111.32
    linarith
  · show lon - radio_km / (111.32 * Real.cos (radians lat)) <
      lon + radio_km / (111.32 * Real.cos (radians lat))
    linarith

/-- Witness for C4 at radius 1 km, latitude 40, longitude -3. -/
theorem C4_bounding_box_witness :
    (0:ℝ) < 1 ∧ (-90:ℝ) < 40 ∧ (40:ℝ) < 90 ∧
    ((calcular_bounding_box 40 (-3) 1).lat_min <
        (calcular_bounding_box 40 (-3) 1).lat_max ∧
      (calcular_bounding_box 40 (-3) 1).lon_min <
        (calcular_bounding_box 40 (-3) 1).lon_max ∧
      (calcular_bounding_box 40 (-3) 1).lat_max = 40 + 1 / 111.32 ∧
      (calcular_bounding_box 40 (-3) 1).lat_min = 40 - 1 / 111.32 ∧
      (calcular_bounding_box 40 (-3) 1).lon_max =
        -3 + 1 / (111.32 * Real.cos (radians 40)) ∧
      (calcular_bounding_box 40 (-3) 1).lon_min =
        -3 - 1 / (111.32 * Real.cos (radians 40))) :=
  ⟨by norm_num, by norm_num, by norm_num,
    C4_bounding_box 40 (-3) 1 (by norm_num) (by norm_num) (by norm_num)⟩

/-! ## C5: missing or empty city, malformed date -/

/-- C5: contrary to the claim, the service answers 500, not 400.  The
handler body does raise HTTPException(400) for a missing or empty city
and for a date that fails to parse as YYYY-MM-DD, but the function-wide
`except Exception` of src/main.py lines 189-191 catches that very
exception and re-raises a 500; the responses below evaluate the embedded
endpoint at those failing inputs, for every choice of collaborators. -/
theorem C5_invalid_input_yields_500
    (geoZona : String → String → Option GeoPointQ)
    (geoCity : String → Option GeoPointQ)
    (revGeo : ℚ → ℚ → Bool)
    (backend : List Clause → Option (List Record)) :
    procesar_variables geoZona geoCity revGeo backend
        ⟨some "", none, none, none, none, none, none, none⟩ =
      HResp.err 500 "Error al procesar variables" ∧
    procesar_variables geoZona geoCity revGeo backend
        ⟨none, none, none, none, none, none, none, none⟩ =
      HResp.err 500 "Error al procesar variables" ∧
    procesar_variables geoZona geoCity revGeo backend
        ⟨some "Madrid", some "2025-13-40", none, none, none, none, none, none⟩ =
      HResp.err 500 "Error al procesar variables" :=
  ⟨rfl, rfl, rfl⟩

/-! ## C6: unresolvable zone -/

/-- C6: for a zone the geocoder cannot resolve, no backend query is
issued (the results are those of an empty search, independently of the
backend), but the response is not the claimed 404: the GET handler's
raised 404 is converted to 500 by its catch-all handler, and the search
body silently skips the failed zone, so the POST endpoint answers 200
with the no-results message. -/
theorem C6_zone_not_found_behaviour
    (geoCity : String → Option GeoPointQ)
    (revGeo : ℚ → ℚ → Bool)
    (backend : List Clause → Option (List Record))
    (radio_km : ℚ) (sort_by_proximity : Bool) :
    get_restaurantes (fun _ _ => none) "Madrid" none (some "Nonexistent Place") =
      HResp.err 500 "Error interno del servidor" ∧
    obtener_restaurantes_por_ciudad (fun _ _ => none) geoCity revGeo backend "Madrid"
        none none none none none (some "Nonexistent Place") none radio_km
        sort_by_proximity =
      Except.ok ([], none) ∧
    procesar_variables (fun _ _ => none) geoCity revGeo backend
        ⟨some "Madrid", none, none, none, none, none, some "Nonexistent Place", none⟩ =
      HResp.ok (PVBody.mensaje "No se encontraron restaurantes con los filtros aplicados.") :=
  ⟨rfl, rfl, rfl⟩

/-! ## C9: response shape of GET /api/getRestaurants -/

/-- C9 counterexample: a plain request with coordinates is answered with
a body whose keys are coordenadas and formula; the claimed resultados /
mensaje shapes do not occur. -/
theorem C9_counterexample :
    respKeys (get_restaurantes (fun _ _ => none) "Madrid" (some "40.0,-3.0") none) =
      some ["coordenadas", "formula"] ∧
    "resultados" ∉ (["coordenadas", "formula"] : List String) ∧
    "mensaje" ∉ (["coordenadas", "formula"] : List String) :=
  ⟨rfl, by decide, by decide⟩

/-- C9 amended: every response of GET /api/getRestaurants is either an
object with the coordenadas and formula keys, or one with the lat, lng
and formula keys, or an error response whose status is 500 (the
handler's own 400/404 HTTPExceptions are converted by its catch-all). -/
theorem C9_response_shape
    (geoZona : String → String → Option GeoPointQ)
    (city : String) (coordenadas zona : Option String) :
    (∀ b, get_restaurantes geoZona city coordenadas zona = HResp.ok b →
      b.keys = ["coordenadas", "formula"] ∨ b.keys = ["lat", "lng", "formula"]) ∧
    (∀ s d, get_restaurantes geoZona city coordenadas zona = HResp.err s d → s = 500) := by
  constructor
  · intro b _
    cases b with
    | coords _ _ => exact Or.inl rfl
    | located _ _ _ => exact Or.inr rfl
  · intro s d h
    unfold get_restaurantes at h
    cases hb : get_restaurantes_body geoZona city coordenadas zona with
    | ok b => rw [hb] at h; cases h
    | error e => rw [hb] at h; cases h; rfl

/-- Witness for C9 amended, at a request with neither coordinates nor
zone: the body raises 400 and the response carries status 500. -/
theorem C9_response_shape_witness :
    get_restaurantes (fun _ _ => none) "Madrid" none none =
      HResp.err 500 "Error interno del servidor" ∧ 500 = 500 :=
  ⟨rfl, (C9_response_shape (fun _ _ => none) "Madrid" none none).2 500
    "Error interno del servidor" rfl⟩

/-! ## Shared lemmas about the merge, the sort and the loop -/

/-- The proximity sort output is pairwise non-decreasing in the sort key. -/
theorem sortByProx_pairwise (lat_centro lon_centro : ℚ) (l : List Record) :
    List.Pairwise (fun r1 r2 => sortKey lat_centro lon_centro r1 ≤
      sortKey lat_centro lon_centro r2) (sortByProx lat_centro lon_centro l) := by
  unfold sortByProx
  have htrans : ∀ a b c : Record,
      decide (sortKey lat_centro lon_centro a ≤ sortKey lat_centro lon_centro b) = true →
      decide (sortKey lat_centro lon_centro b ≤ sortKey lat_centro lon_centro c) = true →
      decide (sortKey lat_centro lon_centro a ≤ sortKey lat_centro lon_centro c) = true := by
    intro a b c hab hbc
    simp only [decide_eq_true_eq] at hab hbc ⊢
    exact le_trans hab hbc
  have htot : ∀ a b : Record,
      (decide (sortKey lat_centro lon_centro a ≤ sortKey lat_centro lon_centro b) ||
        decide (sortKey lat_centro lon_centro b ≤ sortKey lat_centro lon_centro a)) = true := by
    intro a b
    simp only [Bool.or_eq_true, decide_eq_true_eq]
    exact le_total _ _
  have h := List.sorted_mergeSort htrans htot l
  exact h.imp (by intro a b hab; simpa using hab)

/-- The proximity sort permutes its input. -/
theorem sortByProx_perm (lat_centro lon_centro : ℚ) (l : List Record) :
    (sortByProx lat_centro lon_centro l).Perm l :=
  List.mergeSort_perm l _

/-- Merging never shortens the accumulated list. -/
theorem mergeRecords_length_ge (acc new : List Record) :
    acc.length ≤ (mergeRecords acc new).length := by
  unfold mergeRecords
  simp

/-- Merging a duplicate-free response into a duplicate-free accumulation
yields a duplicate-free list: the filter keeps only records absent from
the accumulation. -/
theorem mergeRecords_nodup {acc new : List Record} (ha : acc.Nodup)
    (hn : new.Nodup) : (mergeRecords acc new).Nodup := by
  unfold mergeRecords
  refine List.Nodup.append ha (hn.filter _) ?_
  intro a ha1 ha2
  have h := List.of_mem_filter ha2
  simp only [decide_eq_true_eq] at h
  exact h ha1

/-- The formula queried at one loop step. -/
noncomputable def stepFormula (parts : List Clause) (lat_centro lon_centro radio_km : ℚ) :
    List Clause :=
  parts ++ bboxClauses
    (calcular_bounding_box (lat_centro : ℝ) (lon_centro : ℝ) (radio_km : ℝ))

/-- One unfolding of `searchLoop` when the while condition holds. -/
theorem searchLoop_eq_step (backend : List Clause → Option (List Record))
    (parts : List Clause) (lat_centro lon_centro : ℚ) (radio_km : ℚ)
    (acc : List Record) (h1 : acc.length < 10) :
    searchLoop backend parts lat_centro lon_centro radio_km acc =
      (if 10 ≤ (mergeStep backend (stepFormula parts lat_centro lon_centro radio_km) acc).length then
        (mergeStep backend (stepFormula parts lat_centro lon_centro radio_km) acc,
          some (stepFormula parts lat_centro lon_centro radio_km))
      else if 2 < radio_km + 1/2 then
        (mergeStep backend (stepFormula parts lat_centro lon_centro radio_km) acc,
          some (stepFormula parts lat_centro lon_centro radio_km))
      else searchLoop backend parts lat_centro lon_centro (radio_km + 1/2)
        (mergeStep backend (stepFormula parts lat_centro lon_centro radio_km) acc)) := by
  rw [searchLoop]
  rw [if_pos h1]
  rfl

/-- One unfolding of `searchLoop` when the while condition fails. -/
theorem searchLoop_eq_done (backend : List Clause → Option (List Record))
    (parts : List Clause) (lat_centro lon_centro : ℚ) (radio_km : ℚ)
    (acc : List Record) (h1 : ¬ acc.length < 10) :
    searchLoop backend parts lat_centro lon_centro radio_km acc = (acc, none) := by
  rw [searchLoop]
  rw [if_neg h1]

/-- One unfolding of `searchSteps` when the while condition holds. -/
theorem searchSteps_eq_step (backend : List Clause → Option (List Record))
    (parts : List Clause) (lat_centro lon_centro : ℚ) (radio_km : ℚ)
    (acc : List Record) (h1 : acc.length < 10) :
    searchSteps backend parts lat_centro lon_centro radio_km acc =
      (radio_km, mergeStep backend (stepFormula parts lat_centro lon_centro radio_km) acc) ::
        (if 10 ≤ (mergeStep backend (stepFormula parts lat_centro lon_centro radio_km) acc).length then []
         else if 2 < radio_km + 1/2 then []
         else searchSteps backend parts lat_centro lon_centro (radio_km + 1/2)
           (mergeStep backend (stepFormula parts lat_centro lon_centro radio_km) acc)) := by
  rw [searchSteps]
  rw [if_pos h1]
  rfl

/-- One unfolding of `searchSteps` when the while condition fails. -/
theorem searchSteps_eq_done (backend : List Clause → Option (List Record))
    (parts : List Clause) (lat_centro lon_centro : ℚ) (radio_km : ℚ)
    (acc : List Record) (h1 : ¬ acc.length < 10) :
    searchSteps backend parts lat_centro lon_centro radio_km acc = [] := by
  rw [searchSteps]
  rw [if_neg h1]

/-- The accumulated list after a merge step is duplicate-free whenever
the accumulation was and every backend response is. -/
theorem mergeStep_nodup (backend : List Clause → Option (List Record))
    (hb : ∀ q recs, backend q = some recs → recs.Nodup)
    (fp : List Clause) (acc : List Record) (ha : acc.Nodup) :
    (mergeStep backend fp acc).Nodup := by
  unfold mergeStep
  cases hq : backend fp with
  | some records => exact mergeRecords_nodup ha (hb _ _ hq)
  | none => exact ha

/-- A merge step never shortens the accumulation. -/
theorem mergeStep_length_ge (backend : List Clause → Option (List Record))
    (fp : List Clause) (acc : List Record) :
    acc.length ≤ (mergeStep backend fp acc).length := by
  unfold mergeStep
  cases backend fp with
  | some records => exact mergeRecords_length_ge acc records
  | none => exact le_refl _

/-- The loop preserves freedom from duplicates when every backend
response is duplicate-free. -/
theorem searchLoop_nodup (backend : List Clause → Option (List Record))
    (parts : List Clause) (lat_centro lon_centro : ℚ)
    (hb : ∀ q recs, backend q = some recs → recs.Nodup) :
    ∀ (radio_km : ℚ) (acc : List Record), acc.Nodup →
      (searchLoop backend parts lat_centro lon_centro radio_km acc).1.Nodup := by
  intro radio_km acc
  induction radio_km, acc using searchLoop.induct backend parts lat_centro lon_centro with
  | case1 r a h1 limites fp acc' h10 =>
      intro ha
      rw [searchLoop_eq_step backend parts lat_centro lon_centro r a h1,
        if_pos (show 10 ≤
          (mergeStep backend (stepFormula parts lat_centro lon_centro r) a).length from h10)]
      exact mergeStep_nodup backend hb _ a ha
  | case2 r a h1 limites fp acc' h10 hr =>
      intro ha
      rw [searchLoop_eq_step backend parts lat_centro lon_centro r a h1,
        if_neg (show ¬ 10 ≤
          (mergeStep backend (stepFormula parts lat_centro lon_centro r) a).length from h10),
        if_pos hr]
      exact mergeStep_nodup backend hb _ a ha
  | case3 r a h1 limites fp acc' h10 hr ih =>
      intro ha
      rw [searchLoop_eq_step backend parts lat_centro lon_centro r a h1,
        if_neg (show ¬ 10 ≤
          (mergeStep backend (stepFormula parts lat_centro lon_centro r) a).length from h10),
        if_neg hr]
      exact ih (mergeStep_nodup backend hb _ a ha)
  | case4 r a h1 =>
      intro ha
      rw [searchLoop_eq_done backend parts lat_centro lon_centro r a h1]
      exact ha

/-- The per-zona loop preserves freedom from duplicates when every
backend response is duplicate-free. -/
theorem zonaSearch_nodup
    (geoZona : String → String → Option GeoPointQ)
    (backend : List Clause → Option (List Record))
    (parts : List Clause) (city : String) (radio_km : ℚ)
    (hb : ∀ q recs, backend q = some recs → recs.Nodup) :
    ∀ (zs : List String) (acc : List Record), acc.Nodup →
      (zonaSearch geoZona backend parts city radio_km zs acc).Nodup := by
  intro zs
  induction zs with
  | nil => intro acc ha; exact ha
  | cons z rest ih =>
      intro acc ha
      cases hz : obtener_coordenadas_zona geoZona z city radio_km with
      | none =>
          simp only [zonaSearch, hz]
          exact ih acc ha
      | some loc =>
          simp only [zonaSearch, hz]
          exact ih _ (mergeStep_nodup backend hb _ acc ha)

/-- The final list of the non-zona branch is duplicate-free when every
backend response is. -/
theorem searchFinish_nodup
    (backend : List Clause → Option (List Record))
    (parts : List Clause) (lat_centro lon_centro : ℚ) (sort_by_proximity : Bool)
    (hb : ∀ q recs, backend q = some recs → recs.Nodup) :
    (searchFinish backend parts lat_centro lon_centro sort_by_proximity).1.Nodup := by
  unfold searchFinish
  have hL : (searchLoop backend parts lat_centro lon_centro (1/2) []).1.Nodup :=
    searchLoop_nodup backend parts lat_centro lon_centro hb (1/2) [] List.nodup_nil
  refine List.Nodup.sublist (List.take_sublist _ _) ?_
  cases sort_by_proximity
  · simpa using hL
  · simpa using ((sortByProx_perm lat_centro lon_centro _).symm.nodup hL)

/-- Every successful result of the search body is duplicate-free when
every backend response is. -/
theorem obtener_body_nodup
    (geoZona : String → String → Option GeoPointQ)
    (geoCity : String → Option GeoPointQ)
    (revGeo : ℚ → ℚ → Bool)
    (backend : List Clause → Option (List Record))
    (city : String) (dia_semana price_range cocina diet dish zona : Option String)
    (coordenadas : Option (List ℚ)) (radio_km : ℚ) (sort_by_proximity : Bool)
    (hb : ∀ q recs, backend q = some recs → recs.Nodup) :
    ∀ out f, obtener_restaurantes_por_ciudad_body geoZona geoCity revGeo backend city
        dia_semana price_range cocina diet dish zona coordenadas radio_km
        sort_by_proximity = Except.ok (out, f) → out.Nodup := by
  intro out f h
  unfold obtener_restaurantes_por_ciudad_body at h
  split at h
  · -- zona branch
    injection h with h'
    have h1 := congrArg Prod.fst h'
    simp only at h1
    rw [← h1]
    exact List.Nodup.sublist (List.take_sublist _ _)
      (zonaSearch_nodup geoZona backend _ city radio_km hb _ [] List.nodup_nil)
  · -- no zona
    split at h
    · -- coordinates supplied
      split at h
      · -- exactly two coordinates
        split at h
        · simp at h
        · injection h with h'
          have h1 := congrArg Prod.fst h'
          simp only at h1
          rw [← h1]
          exact searchFinish_nodup backend _ _ _ sort_by_proximity hb
      · simp at h
    · -- city geocode
      split at h
      · simp at h
      · injection h with h'
        have h1 := congrArg Prod.fst h'
        simp only at h1
        rw [← h1]
        exact searchFinish_nodup backend _ _ _ sort_by_proximity hb

/-! ## C2: deduplication of the accumulated results -/

/-- C2 counterexample: the code deduplicates by whole-record equality,
not by identifier.  A single backend response holding two records that
share the identifier dup but differ in a field passes the membership
filter twice, so the final list carries the identifier twice. -/
theorem C2_counterexample :
    obtener_restaurantes_por_ciudad (fun _ _ => some ⟨40, -3⟩) (fun _ => none)
        (fun _ _ => false)
        (fun _ => some [⟨"dup", []⟩, ⟨"dup", [("NBH2", FieldVal.num 5)]⟩])
        "Madrid" none none none none none (some "Z") none 1 true =
      Except.ok ([⟨"dup", []⟩, ⟨"dup", [("NBH2", FieldVal.num 5)]⟩], none) ∧
    (([(⟨"dup", []⟩ : Record), ⟨"dup", [("NBH2", FieldVal.num 5)]⟩].map Record.id).count
      "dup" = 2) :=
  ⟨rfl, by decide⟩

/-- C2 amended: deduplication is by whole-record equality against the
previously accumulated list, so whenever every single backend response
is itself free of duplicate record values, the final result list
contains each record value (hence each identifier-with-fields pair) at
most once; records sharing an identifier but differing in fields may
each appear. -/
theorem C2_nodup_of_responses_nodup
    (geoZona : String → String → Option GeoPointQ)
    (geoCity : String → Option GeoPointQ)
    (revGeo : ℚ → ℚ → Bool)
    (backend : List Clause → Option (List Record))
    (city : String) (dia_semana price_range cocina diet dish zona : Option String)
    (coordenadas : Option (List ℚ)) (radio_km : ℚ) (sort_by_proximity : Bool)
    (hb : ∀ q recs, backend q = some recs → recs.Nodup) :
    ∀ out f, obtener_restaurantes_por_ciudad geoZona geoCity revGeo backend city
        dia_semana price_range cocina diet dish zona coordenadas radio_km
        sort_by_proximity = Except.ok (out, f) → out.Nodup := by
  intro out f h
  unfold obtener_restaurantes_por_ciudad at h
  cases hbody : obtener_restaurantes_por_ciudad_body geoZona geoCity revGeo backend city
      dia_semana price_range cocina diet dish zona coordenadas radio_km
      sort_by_proximity with
  | error e => rw [hbody] at h; cases h
  | ok x =>
      rw [hbody] at h
      cases h
      exact obtener_body_nodup geoZona geoCity revGeo backend city dia_semana price_range
        cocina diet dish zona coordenadas radio_km sort_by_proximity hb out f hbody

/-- Test record located exactly at the test zone centre. -/
def recNear : Record :=
  ⟨"rec-near", [("location/lat", FieldVal.num 40), ("location/lng", FieldVal.num (-3))]⟩

/-- Test record 0.01 degrees of latitude north of the test zone centre. -/
def recFar : Record :=
  ⟨"rec-far", [("location/lat", FieldVal.num (4001/100)), ("location/lng", FieldVal.num (-3))]⟩

/-- The two distinct test records form a duplicate-free response. -/
theorem recPair_nodup : ([recNear, recFar] : List Record).Nodup := by decide

/-- Witness for C2 amended: a zone search whose zone geocodes and whose
backend answers every query with the same two distinct records; the
duplicate-free-responses hypothesis holds non-vacuously and the
returned two-record list is duplicate-free. -/
theorem C2_nodup_witness :
    (∀ q recs, (fun _ : List Clause => some [recNear, recFar]) q = some recs →
      recs.Nodup) ∧
    obtener_restaurantes_por_ciudad (fun _ _ => some ⟨40, -3⟩) (fun _ => none)
        (fun _ _ => false) (fun _ => some [recNear, recFar]) "Madrid"
        none none none none none (some "Z") none 1 true =
      Except.ok ([recNear, recFar], none) ∧
    ([recNear, recFar] : List Record).Nodup := by
  have hb : ∀ q recs, (fun _ : List Clause => some [recNear, recFar]) q = some recs →
      recs.Nodup := by
    intro q recs h
    have h' : [recNear, recFar] = recs := by injection h
    rw [← h']
    exact recPair_nodup
  refine ⟨hb, rfl, ?_⟩
  exact C2_nodup_of_responses_nodup (fun _ _ => some ⟨40, -3⟩) (fun _ => none)
    (fun _ _ => false) (fun _ => some [recNear, recFar]) "Madrid"
    none none none none none (some "Z") none 1 true hb [recNear, recFar] none rfl

/-! ## Lemmas about the loop trace for C3 -/

/-- The first trace entry records the entry radius and the merged
accumulation. -/
theorem searchSteps_head (backend : List Clause → Option (List Record))
    (parts : List Clause) (lat_centro lon_centro : ℚ) (radio_km : ℚ)
    (acc : List Record) (e : ℚ × List Record) (rest : List (ℚ × List Record))
    (h : searchSteps backend parts lat_centro lon_centro radio_km acc = e :: rest) :
    e = (radio_km, mergeStep backend (stepFormula parts lat_centro lon_centro radio_km) acc) := by
  by_cases h1 : acc.length < 10
  · rw [searchSteps_eq_step backend parts lat_centro lon_centro radio_km acc h1] at h
    injection h with h' _
    exact h'.symm
  · rw [searchSteps_eq_done backend parts lat_centro lon_centro radio_km acc h1] at h
    cases h

/-- The trace never exceeds the step budget left below the 2 km radius
ceiling. -/
theorem searchSteps_length_bound (backend : List Clause → Option (List Record))
    (parts : List Clause) (lat_centro lon_centro : ℚ) :
    ∀ (radio_km : ℚ) (acc : List Record),
      (searchSteps backend parts lat_centro lon_centro radio_km acc).length ≤
        (4 - ⌊radio_km * 2⌋).toNat + 1 := by
  intro radio_km acc
  induction radio_km, acc using searchSteps.induct backend parts lat_centro lon_centro with
  | case1 r a h1 limites fp acc' ih =>
      rw [searchSteps_eq_step backend parts lat_centro lon_centro r a h1]
      by_cases h10 :
          10 ≤ (mergeStep backend (stepFormula parts lat_centro lon_centro r) a).length
      · rw [if_pos h10]; simp
      · rw [if_neg h10]
        by_cases hr : 2 < r + 1/2
        · rw [if_pos hr]; simp
        · rw [if_neg hr]
          have ihh : (searchSteps backend parts lat_centro lon_centro (r + 1/2)
              (mergeStep backend (stepFormula parts lat_centro lon_centro r) a)).length ≤
              (4 - ⌊(r + 1/2) * 2⌋).toNat + 1 := ih hr
          simp only [List.length_cons]
          have h4 : r * 2 ≤ 3 := by linarith [not_lt.mp hr]
          have h5 : ⌊r * 2⌋ ≤ 3 := by
            have := Int.floor_le_floor (α := ℚ) h4
            simpa using this
          have h6 : ⌊(r + 1/2) * 2⌋ = ⌊r * 2⌋ + 1 := by
            have e : (r + 1/2) * 2 = r * 2 + (1 : ℤ) := by push_cast; ring
            rw [e, Int.floor_add_int]
          rw [h6] at ihh
          omega
  | case2 r a h1 =>
      rw [searchSteps_eq_done backend parts lat_centro lon_centro r a h1]
      simp

/-- The radii recorded in the trace are strictly increasing. -/
theorem searchSteps_radii_increasing (backend : List Clause → Option (List Record))
    (parts : List Clause) (lat_centro lon_centro : ℚ) :
    ∀ (radio_km : ℚ) (acc : List Record),
      List.Chain' (fun p q => p < q)
        ((searchSteps backend parts lat_centro lon_centro radio_km acc).map Prod.fst) := by
  intro radio_km acc
  induction radio_km, acc using searchSteps.induct backend parts lat_centro lon_centro with
  | case1 r a h1 limites fp acc' ih =>
      rw [searchSteps_eq_step backend parts lat_centro lon_centro r a h1]
      by_cases h10 :
          10 ≤ (mergeStep backend (stepFormula parts lat_centro lon_centro r) a).length
      · rw [if_pos h10]; simp
      · rw [if_neg h10]
        by_cases hr : 2 < r + 1/2
        · rw [if_pos hr]; simp
        · rw [if_neg hr]
          simp only [List.map_cons]
          rw [List.chain'_cons']
          constructor
          · intro b hbmem
            cases hs : searchSteps backend parts lat_centro lon_centro (r + 1/2)
                (mergeStep backend (stepFormula parts lat_centro lon_centro r) a) with
            | nil => rw [hs] at hbmem; simp at hbmem
            | cons e rest' =>
                rw [hs] at hbmem
                simp only [List.map_cons, List.head?_cons, Option.mem_def,
                  Option.some.injEq] at hbmem
                have he := searchSteps_head backend parts lat_centro lon_centro (r + 1/2) _
                  e rest' hs
                rw [← hbmem, he]
                show r < r + 1/2
                linarith
          · exact ih hr
  | case2 r a h1 =>
      rw [searchSteps_eq_done backend parts lat_centro lon_centro r a h1]
      simp

/-- The accumulated-result counts recorded in the trace never decrease. -/
theorem searchSteps_counts_monotone (backend : List Clause → Option (List Record))
    (parts : List Clause) (lat_centro lon_centro : ℚ) :
    ∀ (radio_km : ℚ) (acc : List Record),
      List.Chain' (fun m n => m ≤ n)
        ((searchSteps backend parts lat_centro lon_centro radio_km acc).map
          (fun e => e.2.length)) := by
  intro radio_km acc
  induction radio_km, acc using searchSteps.induct backend parts lat_centro lon_centro with
  | case1 r a h1 limites fp acc' ih =>
      rw [searchSteps_eq_step backend parts lat_centro lon_centro r a h1]
      by_cases h10 :
          10 ≤ (mergeStep backend (stepFormula parts lat_centro lon_centro r) a).length
      · rw [if_pos h10]; simp
      · rw [if_neg h10]
        by_cases hr : 2 < r + 1/2
        · rw [if_pos hr]; simp
        · rw [if_neg hr]
          simp only [List.map_cons]
          rw [List.chain'_cons']
          constructor
          · intro b hbmem
            cases hs : searchSteps backend parts lat_centro lon_centro (r + 1/2)
                (mergeStep backend (stepFormula parts lat_centro lon_centro r) a) with
            | nil => rw [hs] at hbmem; simp at hbmem
            | cons e rest' =>
                rw [hs] at hbmem
                simp only [List.map_cons, List.head?_cons, Option.mem_def,
                  Option.some.injEq] at hbmem
                have he := searchSteps_head backend parts lat_centro lon_centro (r + 1/2) _
                  e rest' hs
                rw [← hbmem, he]
                exact mergeStep_length_ge backend _ _
          · exact ih hr
  | case2 r a h1 =>
      rw [searchSteps_eq_done backend parts lat_centro lon_centro r a h1]
      simp

/-! ## C3: the radius-expansion loop is bounded and monotone -/

/-- C3: starting from radius 0.5 km with step 0.5 km and ceiling 2 km,
the loop issues at most 4 backend queries for any backend behaviour, the
radius is strictly increasing across iterations, and the accumulated
result count never decreases across iterations. -/
theorem C3_radius_loop_bounded (backend : List Clause → Option (List Record))
    (parts : List Clause) (lat_centro lon_centro : ℚ) :
    (searchSteps backend parts lat_centro lon_centro (1/2) []).length ≤ 4 ∧
    List.Chain' (fun p q => p < q)
      ((searchSteps backend parts lat_centro lon_centro (1/2) []).map Prod.fst) ∧
    List.Chain' (fun m n => m ≤ n)
      ((searchSteps backend parts lat_centro lon_centro (1/2) []).map
        (fun e => e.2.length)) := by
  refine ⟨?_, searchSteps_radii_increasing backend parts lat_centro lon_centro (1/2) [],
    searchSteps_counts_monotone backend parts lat_centro lon_centro (1/2) []⟩
  have h := searchSteps_length_bound backend parts lat_centro lon_centro (1/2) []
  have e : ⌊(1/2 : ℚ) * 2⌋ = 1 := by norm_num
  rw [e] at h
  simpa using h

/-! ## C1: distance sort of the final results -/

/-- With valid explicit coordinates whose reverse geocode succeeds, the
search reduces to the non-zona tail. -/
theorem obtener_coords_eq
    (geoZona : String → String → Option GeoPointQ)
    (geoCity : String → Option GeoPointQ)
    (revGeo : ℚ → ℚ → Bool)
    (backend : List Clause → Option (List Record))
    (city : String) (dia_semana price_range cocina diet dish : Option String)
    (a b : ℚ) (radio_km : ℚ) (sort_by_proximity : Bool)
    (hrev : revGeo a b = true) :
    obtener_restaurantes_por_ciudad geoZona geoCity revGeo backend city dia_semana
        price_range cocina diet dish none (some [a, b]) radio_km sort_by_proximity =
      Except.ok (searchFinish backend (buildFormulaParts price_range cocina diet dish)
        a b sort_by_proximity) := by
  unfold obtener_restaurantes_por_ciudad obtener_restaurantes_por_ciudad_body
    busqueda_coordenadas_airtable
  simp [hrev, optTruthy]

/-- C1 counterexample: in the zona branch no distance sort is applied.
The zone geocodes to the centre (40, -3) and the backend answers with the
farther record before the nearer one; the search returns them in backend
order, which is not ascending in haversine distance to the centre. -/
theorem C1_counterexample :
    obtener_restaurantes_por_ciudad (fun _ _ => some ⟨40, -3⟩) (fun _ => none)
        (fun _ _ => false) (fun _ => some [recFar, recNear])
        "Madrid" none none none none none (some "Z") none 1 true =
      Except.ok ([recFar, recNear], none) ∧
    ¬ List.Pairwise (fun r1 r2 => sortKey 40 (-3) r1 ≤ sortKey 40 (-3) r2)
        [recFar, recNear] := by
  constructor
  · rfl
  · intro hp
    have h := (List.pairwise_cons.mp hp).1 recNear (by simp)
    have hNear : sortKey 40 (-3) recNear = 0 := by
      show haversine ((-3 : ℚ) : ℝ) ((40 : ℚ) : ℝ) ((-3 : ℚ) : ℝ) ((40 : ℚ) : ℝ) = 0
      exact haversine_self _ _
    have hFar : 0 < sortKey 40 (-3) recFar := by
      show 0 < haversine ((-3 : ℚ) : ℝ) ((40 : ℚ) : ℝ) ((-3 : ℚ) : ℝ) ((4001/100 : ℚ) : ℝ)
      refine haversine_pos_of_lat_lt _ _ _ ?_ ?_
      · push_cast
        norm_num
      · push_cast
        norm_num
    rw [hNear] at h
    linarith

/-- With a city whose geocode succeeds and neither zone nor coordinates
supplied, the search reduces to the non-zona tail centred on the
geocoded point. -/
theorem obtener_city_eq
    (geoZona : String → String → Option GeoPointQ)
    (geoCity : String → Option GeoPointQ)
    (revGeo : ℚ → ℚ → Bool)
    (backend : List Clause → Option (List Record))
    (city : String) (dia_semana price_range cocina diet dish : Option String)
    (p : GeoPointQ) (radio_km : ℚ) (sort_by_proximity : Bool)
    (hc : geoCity city = some p) :
    obtener_restaurantes_por_ciudad geoZona geoCity revGeo backend city dia_semana
        price_range cocina diet dish none none radio_km sort_by_proximity =
      Except.ok (searchFinish backend (buildFormulaParts price_range cocina diet dish)
        p.lat p.lng sort_by_proximity) := by
  unfold obtener_restaurantes_por_ciudad obtener_restaurantes_por_ciudad_body
    obtener_coordenadas
  simp [optTruthy, hc]

/-- With a truthy zone, the search is the per-zona accumulation in merge
order, truncated to ten records per zone, with `filter_formula` left at
None and no distance sort applied. -/
theorem obtener_zona_eq
    (geoZona : String → String → Option GeoPointQ)
    (geoCity : String → Option GeoPointQ)
    (revGeo : ℚ → ℚ → Bool)
    (backend : List Clause → Option (List Record))
    (city : String) (dia_semana price_range cocina diet dish : Option String)
    (z : String) (coordenadas : Option (List ℚ)) (radio_km : ℚ)
    (sort_by_proximity : Bool) (hz : z ≠ "") :
    obtener_restaurantes_por_ciudad geoZona geoCity revGeo backend city dia_semana
        price_range cocina diet dish (some z) coordenadas radio_km sort_by_proximity =
      Except.ok ((zonaSearch geoZona backend
          (buildFormulaParts price_range cocina diet dish) city radio_km
          (zonasListOf z) []).take ((zonasListOf z).length * 10), none) := by
  unfold obtener_restaurantes_por_ciudad obtener_restaurantes_por_ciudad_body
  simp [optTruthy, hz]

/-- A merge step only ever appends to the accumulation. -/
theorem mergeStep_append (backend : List Clause → Option (List Record))
    (fp : List Clause) (acc : List Record) :
    ∃ t, mergeStep backend fp acc = acc ++ t := by
  unfold mergeStep
  cases backend fp with
  | some records => exact ⟨records.filter _, rfl⟩
  | none => exact ⟨[], (List.append_nil acc).symm⟩

/-- The per-zona loop only ever appends to the accumulation: records
keep their query/merge order. -/
theorem zonaSearch_append
    (geoZona : String → String → Option GeoPointQ)
    (backend : List Clause → Option (List Record))
    (parts : List Clause) (city : String) (radio_km : ℚ) :
    ∀ (zs : List String) (acc : List Record),
      ∃ t, zonaSearch geoZona backend parts city radio_km zs acc = acc ++ t := by
  intro zs
  induction zs with
  | nil => intro acc; exact ⟨[], (List.append_nil acc).symm⟩
  | cons z rest ih =>
      intro acc
      cases hz : obtener_coordenadas_zona geoZona z city radio_km with
      | none =>
          simp only [zonaSearch, hz]
          exact ih acc
      | some loc =>
          simp only [zonaSearch, hz]
          obtain ⟨u, hu⟩ := mergeStep_append backend (parts ++ bboxClauses loc.bounding_box) acc
          obtain ⟨t, ht⟩ := ih (mergeStep backend (parts ++ bboxClauses loc.bounding_box) acc)
          refine ⟨u ++ t, ?_⟩
          rw [ht, hu, List.append_assoc]

/-- C1 amended: with sort_by_proximity at its default true, the non-zona
branch — explicit coordinates accepted by the reverse geocoder, or a
geocoded city — returns a list pairwise non-decreasing in haversine
distance to the centre, truncated to the target count of ten.  In the
zona branch, for every truthy zone string, no sort is applied: the
result is exactly the per-zona accumulation, which only ever appends
(query/merge order is preserved), truncated to ten records per zone. -/
theorem C1_sort_policy
    (geoZona : String → String → Option GeoPointQ)
    (geoCity : String → Option GeoPointQ)
    (revGeo : ℚ → ℚ → Bool)
    (backend : List Clause → Option (List Record))
    (city : String) (dia_semana price_range cocina diet dish : Option String) :
    (∀ (a b radio_km : ℚ), revGeo a b = true →
      ∃ out f,
        obtener_restaurantes_por_ciudad geoZona geoCity revGeo backend city dia_semana
            price_range cocina diet dish none (some [a, b]) radio_km true =
          Except.ok (out, f) ∧
        List.Pairwise (fun r1 r2 => sortKey a b r1 ≤ sortKey a b r2) out ∧
        out.length ≤ 10) ∧
    (∀ (p : GeoPointQ) (radio_km : ℚ), geoCity city = some p →
      ∃ out f,
        obtener_restaurantes_por_ciudad geoZona geoCity revGeo backend city dia_semana
            price_range cocina diet dish none none radio_km true =
          Except.ok (out, f) ∧
        List.Pairwise (fun r1 r2 => sortKey p.lat p.lng r1 ≤ sortKey p.lat p.lng r2) out ∧
        out.length ≤ 10) ∧
    (∀ (z : String) (coordenadas : Option (List ℚ)) (radio_km : ℚ)
        (sort_by_proximity : Bool), z ≠ "" →
      obtener_restaurantes_por_ciudad geoZona geoCity revGeo backend city dia_semana
          price_range cocina diet dish (some z) coordenadas radio_km sort_by_proximity =
        Except.ok ((zonaSearch geoZona backend
            (buildFormulaParts price_range cocina diet dish) city radio_km
            (zonasListOf z) []).take ((zonasListOf z).length * 10), none) ∧
      (∀ (zs : List String) (acc : List Record), ∃ t,
        zonaSearch geoZona backend (buildFormulaParts price_range cocina diet dish)
          city radio_km zs acc = acc ++ t) ∧
      ((zonaSearch geoZona backend (buildFormulaParts price_range cocina diet dish)
          city radio_km (zonasListOf z) []).take ((zonasListOf z).length * 10)).length ≤
        (zonasListOf z).length * 10) := by
  refine ⟨?_, ?_, ?_⟩
  · intro a b radio_km hrev
    refine ⟨(sortByProx a b (searchLoop backend
        (buildFormulaParts price_range cocina diet dish) a b (1/2) []).1).take 10,
      (searchLoop backend (buildFormulaParts price_range cocina diet dish) a b (1/2) []).2,
      ?_, ?_, ?_⟩
    · rw [obtener_coords_eq geoZona geoCity revGeo backend city dia_semana price_range
        cocina diet dish a b radio_km true hrev]
      rfl
    · exact List.Pairwise.sublist (List.take_sublist _ _) (sortByProx_pairwise a b _)
    · rw [List.length_take]
      exact min_le_left _ _
  · intro p radio_km hc
    refine ⟨(sortByProx p.lat p.lng (searchLoop backend
        (buildFormulaParts price_range cocina diet dish) p.lat p.lng (1/2) []).1).take 10,
      (searchLoop backend (buildFormulaParts price_range cocina diet dish)
        p.lat p.lng (1/2) []).2,
      ?_, ?_, ?_⟩
    · rw [obtener_city_eq geoZona geoCity revGeo backend city dia_semana price_range
        cocina diet dish p radio_km true hc]
      rfl
    · exact List.Pairwise.sublist (List.take_sublist _ _) (sortByProx_pairwise p.lat p.lng _)
    · rw [List.length_take]
      exact min_le_left _ _
  · intro z coordenadas radio_km sort_by_proximity hz
    refine ⟨obtener_zona_eq geoZona geoCity revGeo backend city dia_semana price_range
        cocina diet dish z coordenadas radio_km sort_by_proximity hz,
      zonaSearch_append geoZona backend _ city radio_km, ?_⟩
    rw [List.length_take]
    exact min_le_left _ _

/-- Witness for C1 amended at centre (40, -3): all three branch
hypotheses are discharged at concrete inputs. -/
theorem C1_sort_policy_witness :
    ((fun _ _ : ℚ => true) (40 : ℚ) (-3 : ℚ) = true) ∧
    ((fun _ : String => some (⟨40, -3⟩ : GeoPointQ)) "Madrid" = some ⟨40, -3⟩) ∧
    ("Z" ≠ "") ∧
    (∃ out f, obtener_restaurantes_por_ciudad (fun _ _ => none)
        (fun _ => some ⟨40, -3⟩) (fun _ _ => true) (fun _ => none) "Madrid"
        none none none none none none (some [40, -3]) 1 true = Except.ok (out, f) ∧
      List.Pairwise (fun r1 r2 => sortKey 40 (-3) r1 ≤ sortKey 40 (-3) r2) out ∧
      out.length ≤ 10) ∧
    (∃ out f, obtener_restaurantes_por_ciudad (fun _ _ => none)
        (fun _ => some ⟨40, -3⟩) (fun _ _ => true) (fun _ => none) "Madrid"
        none none none none none none none 1 true = Except.ok (out, f) ∧
      List.Pairwise (fun r1 r2 => sortKey 40 (-3) r1 ≤ sortKey 40 (-3) r2) out ∧
      out.length ≤ 10) ∧
    (obtener_restaurantes_por_ciudad (fun _ _ => none) (fun _ => some ⟨40, -3⟩)
        (fun _ _ => true) (fun _ => none) "Madrid" none none none none none
        (some "Z") none 1 true =
      Except.ok ((zonaSearch (fun _ _ => none) (fun _ => none)
          (buildFormulaParts none none none none) "Madrid" 1 (zonasListOf "Z") []).take
        ((zonasListOf "Z").length * 10), none)) := by
  refine ⟨rfl, rfl, by decide, ?_, ?_, ?_⟩
  · exact (C1_sort_policy (fun _ _ => none) (fun _ => some ⟨40, -3⟩) (fun _ _ => true)
      (fun _ => none) "Madrid" none none none none none).1 40 (-3) 1 rfl
  · exact (C1_sort_policy (fun _ _ => none) (fun _ => some ⟨40, -3⟩) (fun _ _ => true)
      (fun _ => none) "Madrid" none none none none none).2.1 ⟨40, -3⟩ 1 rfl
  · exact ((C1_sort_policy (fun _ _ => none) (fun _ => some ⟨40, -3⟩) (fun _ _ => true)
      (fun _ => none) "Madrid" none none none none none).2.2 "Z" none 1 true
      (by decide)).1

/-! ## C10: records with missing location fields in the distance sort -/

/-- C10 counterexample: a record carrying a latitude but no longitude is
not treated as located at (0, 0): only the missing coordinate defaults to
0.  At centre (0, 0) the claimed sort key would be the distance from the
centre to (0, 0), which is 0, yet the actual key is strictly positive. -/
theorem C10_counterexample :
    sortKey 0 0 ⟨"r1", [("location/lat", FieldVal.num 40)]⟩ = haversine 0 0 0 40 ∧
    haversine 0 0 0 0 < sortKey 0 0 ⟨"r1", [("location/lat", FieldVal.num 40)]⟩ := by
  have he : sortKey 0 0 (⟨"r1", [("location/lat", FieldVal.num 40)]⟩ : Record) =
      haversine 0 0 0 40 := by
    show haversine ((0 : ℚ) : ℝ) ((0 : ℚ) : ℝ) ((0 : ℚ) : ℝ) ((40 : ℚ) : ℝ) =
      haversine 0 0 0 40
    norm_num
  refine ⟨he, ?_⟩
  rw [he, haversine_self]
  exact haversine_pos_of_lat_lt 0 0 40 (by norm_num) (by norm_num)

/-- C10 amended: a record whose field map lacks both the location/lat and
the location/lng keys is keyed by the haversine distance from the centre
to (0, 0); the sorted output is pairwise non-decreasing in that key, so
such records follow every record whose key is smaller. -/
theorem C10_missing_coords_treated_as_origin (lat_centro lon_centro : ℚ) (r : Record)
    (hlat : r.fields.lookup "location/lat" = none)
    (hlng : r.fields.lookup "location/lng" = none) :
    sortKey lat_centro lon_centro r =
      haversine (lon_centro : ℝ) (lat_centro : ℝ) 0 0 ∧
    ∀ l, List.Pairwise (fun r1 r2 => sortKey lat_centro lon_centro r1 ≤
        sortKey lat_centro lon_centro r2) (sortByProx lat_centro lon_centro l) := by
  constructor
  · unfold sortKey getNum
    rw [hlat, hlng]
    norm_num
  · intro l
    exact sortByProx_pairwise lat_centro lon_centro l

/-- Witness for C10 amended: a record with an empty field map, centre
(40, -3). -/
theorem C10_missing_coords_witness :
    ((⟨"r0", []⟩ : Record).fields.lookup "location/lat" = none) ∧
    ((⟨"r0", []⟩ : Record).fields.lookup "location/lng" = none) ∧
    (sortKey 40 (-3) ⟨"r0", []⟩ = haversine ((-3 : ℚ) : ℝ) ((40 : ℚ) : ℝ) 0 0 ∧
      ∀ l, List.Pairwise (fun r1 r2 => sortKey 40 (-3) r1 ≤ sortKey 40 (-3) r2)
        (sortByProx 40 (-3) l)) :=
  ⟨rfl, rfl, C10_missing_coords_treated_as_origin 40 (-3) _ rfl rfl⟩

/-! ## C7: weekday resolution and the absence of a day-of-week clause -/

/-- Test record with an empty field map. -/
def rec0 : Record := ⟨"rec0", []⟩

/-- Evaluation of the expansion loop against a backend that always
returns the single record `rec0`: the loop runs all four radius steps
(the merge deduplicates the repeated record) and ends at radius 2 km. -/
theorem searchLoop_singleton_eval :
    searchLoop (fun _ => some [rec0]) [] 40 (-3) (1/2) [] =
      ([rec0], some (stepFormula [] 40 (-3) 2)) := by
  have m0 : ∀ f, mergeStep (fun _ => some [rec0]) f [] = [rec0] := fun _ => rfl
  have m1 : ∀ f, mergeStep (fun _ => some [rec0]) f [rec0] = [rec0] := fun _ => rfl
  have e1 : searchLoop (fun _ => some [rec0]) [] 40 (-3) (1/2) [] =
      searchLoop (fun _ => some [rec0]) [] 40 (-3) 1 [rec0] := by
    rw [searchLoop_eq_step _ _ _ _ _ _ (by norm_num), m0]
    norm_num
  have e2 : searchLoop (fun _ => some [rec0]) [] 40 (-3) 1 [rec0] =
      searchLoop (fun _ => some [rec0]) [] 40 (-3) (3/2) [rec0] := by
    rw [searchLoop_eq_step _ _ _ _ _ _ (by norm_num), m1]
    norm_num
  have e3 : searchLoop (fun _ => some [rec0]) [] 40 (-3) (3/2) [rec0] =
      searchLoop (fun _ => some [rec0]) [] 40 (-3) 2 [rec0] := by
    rw [searchLoop_eq_step _ _ _ _ _ _ (by norm_num), m1]
    norm_num
  have e4 : searchLoop (fun _ => some [rec0]) [] 40 (-3) 2 [rec0] =
      ([rec0], some (stepFormula [] 40 (-3) 2)) := by
    rw [searchLoop_eq_step _ _ _ _ _ _ (by norm_num), m1]
    norm_num
  rw [e1, e2, e3, e4]

/-- C7 counterexample: a request for 2025-03-10 resolves the weekday to
lunes, yet the filter formula sent to the backend on the last loop
iteration contains no clause mentioning it (the formula holds only the
four bounding-box conjuncts): the dia_semana value is never used by the
formula builder. -/
theorem C7_counterexample :
    (obtener_restaurantes_por_ciudad (fun _ _ => none) (fun _ => none) (fun _ _ => true)
        (fun _ => some [rec0]) "Madrid" (some "lunes") none none none none none
        (some [40, -3]) 1 true).map
        (fun p => (p.1, p.2.map (fun f => hasDayClauseB f "lunes"))) =
      Except.ok ([rec0], some false) ∧
    parseDate "2025-03-10" = some ⟨2025, 3, 10⟩ ∧
    obtener_dia_semana ⟨2025, 3, 10⟩ = "lunes" := by
  refine ⟨?_, rfl, rfl⟩
  rw [obtener_coords_eq (fun _ _ => none) (fun _ => none) (fun _ _ => true)
    (fun _ => some [rec0]) "Madrid" (some "lunes") none none none none 40 (-3) 1 true rfl]
  have hbp : buildFormulaParts none none none none = [] := rfl
  unfold searchFinish
  rw [hbp, searchLoop_singleton_eval]
  simp [Except.map, hasDayClauseB, stepFormula, bboxClauses, Clause.strings,
    sortByProx, List.mergeSort_singleton]

/-- C7 amended: the weekday of a valid date is resolved to the Spanish
lowercase name (2025-03-10 resolves to lunes), but the search result,
and in particular every filter formula it sends to the backend, is
independent of the dia_semana argument: the formula builder never adds a
day-of-week clause. -/
theorem C7_weekday_resolved_formula_unchanged :
    obtener_dia_semana ⟨2025, 3, 10⟩ = "lunes" ∧
    ∀ (geoZona : String → String → Option GeoPointQ)
      (geoCity : String → Option GeoPointQ)
      (revGeo : ℚ → ℚ → Bool)
      (backend : List Clause → Option (List Record))
      (city : String) (d1 d2 : Option String)
      (price_range cocina diet dish zona : Option String)
      (coordenadas : Option (List ℚ)) (radio_km : ℚ) (sort_by_proximity : Bool),
      obtener_restaurantes_por_ciudad geoZona geoCity revGeo backend city d1
          price_range cocina diet dish zona coordenadas radio_km sort_by_proximity =
        obtener_restaurantes_por_ciudad geoZona geoCity revGeo backend city d2
          price_range cocina diet dish zona coordenadas radio_km sort_by_proximity :=
  ⟨rfl, fun _ _ _ _ _ _ _ _ _ _ _ _ _ _ _ => rfl⟩

end BistroHunter
